import Mathlib

/-!
Verification of the roast-me backend (Python) against its specification.

The development shallowly embeds the Python modules that the claims are about:

* `src/functions/services/animation_validator.py`
* `src/functions/services/animation_utils.py`
* `src/functions/services/animation_service.py`
* `src/functions/services/animation_constants.py`
* `src/functions/services/roast_service.py`
* `src/functions/utils/decode_audio.py`

Modelling conventions:

* Python values (`None`, `bool`, numbers, `str`, `list`, `dict`) are embedded
  as the inductive type `Py`.  Python `int` and `float` are both embedded as
  `ℚ`; a Python `bool` participates in numeric contexts with value 0 or 1
  (in Python `bool` is a subclass of `int`, so `isinstance(b, (int, float))`
  holds for booleans).
* Python functions that can raise (comparisons between incomparable types,
  attribute access on non-dicts, membership tests with unhashable keys) are
  embedded in `Except String`; the error payload is a descriptive string
  standing for the exception, and callers that use `try/except` are embedded
  by matching on the `Except` value.
* Issue-message strings keep the constant part of the corresponding Python
  f-strings; the interpolated payloads (indices and numeric values) are
  elided, which preserves the branch structure and the multiset of issues
  exactly.
* Dictionaries are association lists with the insertion order of the source;
  `dict.get(k, d)` is `pyGet`, attribute-style `.get` on a value that may not
  be a dict is `pyAttrGet` (raising `AttributeError` otherwise, as Python
  does).
-/

/-- Embedded Python value: `None`, `bool`, `int`/`float` (as `ℚ`), `str`,
`list`, `dict` with string keys in insertion order. -/
inductive Py where
  | none : Py
  | bool : Bool → Py
  | num : ℚ → Py
  | str : String → Py
  | list : List Py → Py
  | dict : List (String × Py) → Py
deriving Repr

instance : Inhabited Py := ⟨Py.none⟩

/-- Python truthiness: `None`, `False`, `0`, `""`, `[]`, `{}` are falsy. -/
def Py.truthy : Py → Bool
  | .none => false
  | .bool b => b
  | .num q => decide (q ≠ 0)
  | .str s => decide (s ≠ "")
  | .list [] => false
  | .list (_ :: _) => true
  | .dict [] => false
  | .dict (_ :: _) => true

/-- `v is None` in Python. -/
def Py.isNoneV : Py → Bool
  | .none => true
  | _ => false

/-- Numeric view of a Python value: `isinstance(v, (int, float))` succeeds
exactly when this is `some`; a `bool` counts as numeric with value 0 or 1. -/
def pyNum : Py → Option ℚ
  | .num q => some q
  | .bool b => some (if b then 1 else 0)
  | _ => Option.none

/-- Using a Python value in an ordered comparison with a number: returns the
numeric value, or raises `TypeError` exactly when Python would. -/
def asNum (v : Py) : Except String ℚ :=
  match pyNum v with
  | some q => Except.ok q
  | Option.none => Except.error "TypeError: unsupported comparison"

/-- First-match association-list lookup (Python dict keys are unique, so this
is Python dict lookup). -/
def pyLookup : List (String × Py) → String → Option Py
  | [], _ => Option.none
  | (k, v) :: rest, key => if k = key then some v else pyLookup rest key

/-- Python `d.get(key, dflt)` on a dict given as an association list. -/
def pyGet (d : List (String × Py)) (key : String) (dflt : Py) : Py :=
  (pyLookup d key).getD dflt

/-- Python `v.get(key, dflt)` where `v` may not be a dict: raises
`AttributeError` on non-dicts. -/
def pyAttrGet (v : Py) (key : String) (dflt : Py) : Except String Py :=
  match v with
  | .dict d => Except.ok (pyGet d key dflt)
  | _ => Except.error "AttributeError: object has no attribute get"

/-- Python `v in D` for a dict `D` keyed by strings: string keys are looked
up, other hashable values are simply absent, unhashable values (`list`,
`dict`) raise `TypeError`. -/
def dictContains (keys : List String) (v : Py) : Except String Bool :=
  match v with
  | .str s => Except.ok (keys.contains s)
  | .list _ => Except.error "TypeError: unhashable type"
  | .dict _ => Except.error "TypeError: unhashable type"
  | _ => Except.ok false

/-! ### `animation_constants.py` -/

/-- Keys of `AVAILABLE_ANIMATIONS` (only membership is used by the code under
verification). -/
def AVAILABLE_ANIMATIONS : List String :=
  ["idle", "walkRelaxed", "walkThink", "run", "sitTalk", "spellcast", "relax"]

/-- Keys of `AVAILABLE_EXPRESSIONS`. -/
def AVAILABLE_EXPRESSIONS : List String :=
  ["neutral", "smile", "laugh", "shocked", "angry", "confused"]

/-- `ANIMATION_CONFIG["max_keyframes"]`. -/
def ANIMATION_CONFIG_max_keyframes : Nat := 10

/-- `DEFAULT_ANIMATION`. -/
def DEFAULT_ANIMATION : String := "idle"

/-- `DEFAULT_EXPRESSION`. -/
def DEFAULT_EXPRESSION : String := "neutral"

/-- `DEFAULT_INTENSITY`. -/
def DEFAULT_INTENSITY : ℚ := 0.5

/-! ### `animation_utils.py` -/

/-- Python `text.split()`: split on whitespace, dropping empty pieces. -/
def splitWords (text : String) : List String :=
  (text.split Char.isWhitespace).filter (fun w => w != "")

/-- `estimate_audio_duration` from `animation_utils.py`: 0.4 seconds per
word, clamped to `[3, 120]`. -/
def estimate_audio_duration (text : String) : ℚ :=
  let word_count : ℚ := ((splitWords text).length : ℚ)
  let estimated_seconds := word_count * 0.4
  max 3 (min 120 estimated_seconds)

/-- `generate_default_animation_script` from `animation_utils.py`: the
deterministic 4-phase fallback script. -/
def generate_default_animation_script (duration_seconds : ℚ) (transcript : String) : Py :=
  let section_1 := duration_seconds * 0.25
  let section_2 := duration_seconds * 0.5
  let section_3 := duration_seconds * 0.75
  Py.dict [
    ("metadata", Py.dict [
      ("duration", Py.num duration_seconds),
      ("transcript", Py.str (if transcript.length > 100 then transcript.take 100 ++ "..." else transcript)),
      ("intensity", Py.str "medium"),
      ("style", Py.str "comedic"),
      ("notes", Py.str "Generated using fallback pattern"),
      ("fallback", Py.bool true)]),
    ("timeline", Py.list [
      Py.dict [("startTime", Py.num 0), ("endTime", Py.num section_1),
        ("animation", Py.str "idle"), ("expression", Py.str "neutral"),
        ("intensity", Py.num 0.5), ("notes", Py.str "Opening - neutral stance, setting up")],
      Py.dict [("startTime", Py.num section_1), ("endTime", Py.num section_2),
        ("animation", Py.str "sitTalk"), ("expression", Py.str "smile"),
        ("intensity", Py.num 0.7), ("notes", Py.str "Building - friendly, conversational tone")],
      Py.dict [("startTime", Py.num section_2), ("endTime", Py.num section_3),
        ("animation", Py.str "spellcast"), ("expression", Py.str "laugh"),
        ("intensity", Py.num 0.9), ("notes", Py.str "Climax - high energy, emphasizing humor")],
      Py.dict [("startTime", Py.num section_3), ("endTime", Py.num duration_seconds),
        ("animation", Py.str "relax"), ("expression", Py.str "smile"),
        ("intensity", Py.num 0.6), ("notes", Py.str "Closing - settling down, satisfied expression")]])]

/-- `clamp_intensity` from `animation_utils.py`: non-numeric values map to
`DEFAULT_INTENSITY`, numeric values are clamped to `[0, 1]`. -/
def clamp_intensity (value : Py) : ℚ :=
  match pyNum value with
  | Option.none => DEFAULT_INTENSITY
  | some q => max 0 (min 1 q)

/-- One sanitized keyframe of `sanitize_animation_script` (the dict literal
built inside the loop). -/
def sanitize_frame (f : List (String × Py)) : List (String × Py) :=
  [("startTime", pyGet f "startTime" (Py.num 0)),
   ("endTime", pyGet f "endTime" (Py.num 0)),
   ("animation", pyGet f "animation" (Py.str DEFAULT_ANIMATION)),
   ("expression", pyGet f "expression" (Py.str DEFAULT_EXPRESSION)),
   ("intensity", Py.num (clamp_intensity (pyGet f "intensity" (Py.num DEFAULT_INTENSITY)))),
   ("notes", pyGet f "notes" (Py.str ""))]

/-- The sanitization loop of `sanitize_animation_script`: non-dict timeline
entries are dropped silently. -/
def sanitize_timeline : List Py → List Py
  | [] => []
  | frame :: rest =>
    match frame with
    | .dict f => Py.dict (sanitize_frame f) :: sanitize_timeline rest
    | _ => sanitize_timeline rest

/-- `sanitize_animation_script` from `animation_utils.py`: returns `none`
(Python `None`) when the script is not a dict or its timeline is not a
list. -/
def sanitize_animation_script (script : Py) : Option Py :=
  match script with
  | .dict d =>
    let metadata := pyGet d "metadata" (Py.dict [])
    let timeline := pyGet d "timeline" (Py.list [])
    match timeline with
    | .list frames =>
      some (Py.dict [("metadata", metadata), ("timeline", Py.list (sanitize_timeline frames))])
    | _ => Option.none
  | _ => Option.none

/-! ### `animation_validator.py` -/

/-- Membership of the metadata intensity in `["low", "medium", "high"]`
(Python list membership by equality, never raising). -/
def isMetaIntensity : Py → Bool
  | .str s => s == "low" || s == "medium" || s == "high"
  | _ => false

/-- `_validate_metadata` from `animation_validator.py` (pure: none of its
checks can raise). -/
def _validate_metadata (metadata : Py) (expected_duration : ℚ) : List String :=
  match metadata with
  | .dict m =>
    let durationIssues :=
      match pyGet m "duration" Py.none with
      | Py.none => ["Metadata missing duration"]
      | v =>
        match pyNum v with
        | Option.none => ["Metadata duration must be a number"]
        | some duration =>
          if duration ≤ 0 then ["Metadata duration must be positive"]
          else if |duration - expected_duration| > 2 then ["Duration mismatch"]
          else []
    let transcript := pyGet m "transcript" Py.none
    let transcriptIssues :=
      if transcript.truthy = false then ["Metadata missing transcript"]
      else
        match transcript with
        | .str _ => []
        | _ => ["Metadata transcript must be a string"]
    let intensity := pyGet m "intensity" Py.none
    let intensityIssues :=
      if intensity.truthy && !(isMetaIntensity intensity) then
        ["Metadata intensity must be low, medium, or high"]
      else []
    durationIssues ++ transcriptIssues ++ intensityIssues
  | _ => ["Metadata must be a dictionary"]

/-- `_validate_keyframe` from `animation_validator.py`.  Raises (`Except.error`)
exactly where Python raises: ordered comparison of a present non-numeric
`startTime`/`endTime` with a number, and dict-membership with an unhashable
`animation`/`expression`. -/
def _validate_keyframe (frame : Py) (_index : Nat) (expected_duration : ℚ) :
    Except String (List String) :=
  match frame with
  | .dict f =>
    let missingIssues :=
      ((["startTime", "endTime", "animation", "expression", "intensity"].filter
        (fun fld => (pyLookup f fld).isNone)).map
        (fun fld => "Keyframe missing required field " ++ fld))
    let start_time := pyGet f "startTime" Py.none
    let end_time := pyGet f "endTime" Py.none
    let startTypeIssues :=
      if !start_time.isNoneV && (pyNum start_time).isNone then
        ["Keyframe startTime must be numeric"]
      else []
    let endTypeIssues :=
      if !end_time.isNoneV && (pyNum end_time).isNone then
        ["Keyframe endTime must be numeric"]
      else []
    let timingRes : Except String (List String) :=
      if !start_time.isNoneV && !end_time.isNoneV then
        match asNum start_time with
        | Except.error e => Except.error e
        | Except.ok s =>
          let negIssues := if s < 0 then ["Keyframe startTime cannot be negative"] else []
          match asNum end_time with
          | Except.error e => Except.error e
          | Except.ok e2 =>
            Except.ok (negIssues
              ++ (if e2 ≤ s then ["Keyframe endTime must be after startTime"] else [])
              ++ (if e2 > expected_duration + 1 then ["Keyframe endTime exceeds duration"] else []))
      else Except.ok []
    let animation := pyGet f "animation" Py.none
    let animRes : Except String (List String) :=
      if animation.truthy then
        match dictContains AVAILABLE_ANIMATIONS animation with
        | Except.error e => Except.error e
        | Except.ok mem => Except.ok (if mem = false then ["Keyframe has invalid animation"] else [])
      else Except.ok []
    let expression := pyGet f "expression" Py.none
    let exprRes : Except String (List String) :=
      if expression.truthy then
        match dictContains AVAILABLE_EXPRESSIONS expression with
        | Except.error e => Except.error e
        | Except.ok mem => Except.ok (if mem = false then ["Keyframe has invalid expression"] else [])
      else Except.ok []
    let intensity := pyGet f "intensity" Py.none
    let intensityIssues :=
      if intensity.isNoneV then []
      else
        match pyNum intensity with
        | Option.none => ["Keyframe intensity must be numeric"]
        | some q => if 0 ≤ q ∧ q ≤ 1 then [] else ["Keyframe intensity must be between 0.0 and 1.0"]
    match timingRes with
    | Except.error e => Except.error e
    | Except.ok timingIssues =>
      match animRes with
      | Except.error e => Except.error e
      | Except.ok animIssues =>
        match exprRes with
        | Except.error e => Except.error e
        | Except.ok exprIssues =>
          Except.ok (missingIssues ++ startTypeIssues ++ endTypeIssues ++ timingIssues
            ++ animIssues ++ exprIssues ++ intensityIssues)
  | _ => Except.ok ["Keyframe must be a dictionary"]

/-- The `for i, frame in enumerate(timeline)` loop of
`validate_animation_script`, collecting per-keyframe issues in order. -/
def keyframeLoop : List Py → Nat → ℚ → Except String (List String)
  | [], _, _ => Except.ok []
  | frame :: rest, i, expected_duration =>
    match _validate_keyframe frame i expected_duration with
    | Except.error e => Except.error e
    | Except.ok frameIssues =>
      match keyframeLoop rest (i + 1) expected_duration with
      | Except.error e => Except.error e
      | Except.ok tailIssues => Except.ok (frameIssues ++ tailIssues)

/-- The gap-checking loop of `_validate_timeline_continuity`. -/
def gapIssuesLoop : List Py → Nat → Except String (List String)
  | current :: next :: rest, i =>
    match pyAttrGet current "endTime" (Py.num 0) with
    | Except.error e => Except.error e
    | Except.ok ce =>
      match pyAttrGet next "startTime" (Py.num 0) with
      | Except.error e => Except.error e
      | Except.ok ns =>
        match asNum ns with
        | Except.error e => Except.error e
        | Except.ok next_start =>
          match asNum ce with
          | Except.error e => Except.error e
          | Except.ok current_end =>
            match gapIssuesLoop (next :: rest) (i + 1) with
            | Except.error e => Except.error e
            | Except.ok tail =>
              Except.ok ((if next_start - current_end > 1 then
                ["Gap in timeline between consecutive keyframes"] else []) ++ tail)
  | _, _ => Except.ok []

/-- `_validate_timeline_continuity` from `animation_validator.py`. -/
def _validate_timeline_continuity (timeline : List Py) (expected_duration : ℚ) :
    Except String (List String) :=
  match timeline with
  | [] => Except.ok []
  | first_frame :: _ =>
    match pyAttrGet first_frame "startTime" (Py.num 0) with
    | Except.error e => Except.error e
    | Except.ok sv =>
      match asNum sv with
      | Except.error e => Except.error e
      | Except.ok sq =>
        let startIssues := if sq > 0.5 then ["Timeline should start near 0 seconds"] else []
        match pyAttrGet timeline.getLast! "endTime" (Py.num 0) with
        | Except.error e => Except.error e
        | Except.ok ev =>
          match asNum ev with
          | Except.error e => Except.error e
          | Except.ok last_end =>
            let endIssues :=
              if last_end < expected_duration - 1 then ["Timeline ends before expected duration"] else []
            match gapIssuesLoop timeline 0 with
            | Except.error e => Except.error e
            | Except.ok gapIssues => Except.ok (startIssues ++ endIssues ++ gapIssues)

/-- `validate_animation_script` from `animation_validator.py`: returns
`(is_valid, issues)`, or raises exactly where Python raises. -/
def validate_animation_script (script : Py) (expected_duration : ℚ) :
    Except String (Bool × List String) :=
  match script with
  | .dict d =>
    let metadata := pyGet d "metadata" Py.none
    let issues1 :=
      if metadata.truthy = false then ["Missing metadata section"]
      else _validate_metadata metadata expected_duration
    let timeline := pyGet d "timeline" (Py.list [])
    if timeline.truthy = false then
      let issues := issues1 ++ ["Timeline is empty or missing"]
      Except.ok (issues.isEmpty, issues)
    else
      match timeline with
      | .list frames =>
        let issues2 := issues1
          ++ (if frames.length > ANIMATION_CONFIG_max_keyframes then
                ["Timeline has too many keyframes"] else [])
          ++ (if frames.length < 3 then ["Timeline should have at least 3 keyframes"] else [])
        match keyframeLoop frames 0 expected_duration with
        | Except.error e => Except.error e
        | Except.ok frameIssues =>
          match _validate_timeline_continuity frames expected_duration with
          | Except.error e => Except.error e
          | Except.ok contIssues =>
            let issues := issues2 ++ frameIssues ++ contIssues
            Except.ok (issues.isEmpty, issues)
      | _ => Except.ok (false, issues1 ++ ["Timeline must be a list"])
  | _ => Except.ok (false, ["Script must be a dictionary"])

/-! ### `animation_service.py` -/

/-- The body of the `try:` block of `generate_animation_script`.  The Gemini
call `_call_gemini_for_animation` is opaque network interaction; its result
(a parsed script, or `None` on any API/parse failure) is the parameter
`modelResult`.  Failures of later steps surface as `Except.error`, which the
enclosing `except` of `generate_animation_script` catches. -/
def generate_animation_script_try (modelResult : Option Py) (transcript : String)
    (duration_seconds : ℚ) : Except String Py :=
  match modelResult with
  | Option.none => Except.ok (generate_default_animation_script duration_seconds transcript)
  | some animation_script =>
    match validate_animation_script animation_script duration_seconds with
    | Except.error e => Except.error e
    | Except.ok (is_valid, issues) =>
      if issues.isEmpty = false ∧ is_valid = false then
        Except.ok (generate_default_animation_script duration_seconds transcript)
      else
        match sanitize_animation_script animation_script with
        | Option.none => Except.error "AttributeError: NoneType has no attribute get"
        | some sanitized => Except.ok sanitized

/-- `generate_animation_script` from `animation_service.py`: the `try/except`
wrapper that answers every failure with the deterministic fallback script. -/
def generate_animation_script (modelResult : Option Py) (transcript : String)
    (duration_seconds : ℚ) : Py :=
  match generate_animation_script_try modelResult transcript duration_seconds with
  | Except.ok script => script
  | Except.error _ => generate_default_animation_script duration_seconds transcript

/-! ### `roast_service.py` -/

/-- Python two-argument `min`: `b` if `b < a` else `a`; `TypeError` when the
values cannot be compared numerically. -/
def pyMin (a b : Py) : Except String Py :=
  match asNum a, asNum b with
  | Except.ok qa, Except.ok qb => Except.ok (if qb < qa then b else a)
  | Except.error e, _ => Except.error e
  | _, Except.error e => Except.error e

/-- Python two-argument `max`: `b` if `b > a` else `a`. -/
def pyMax (a b : Py) : Except String Py :=
  match asNum a, asNum b with
  | Except.ok qa, Except.ok qb => Except.ok (if qb > qa then b else a)
  | Except.error e, _ => Except.error e
  | _, Except.error e => Except.error e

/-- Python dict assignment `d[key] = v`: replaces in place, appends when the
key is absent. -/
def dictSet : List (String × Py) → String → Py → List (String × Py)
  | [], key, v => [(key, v)]
  | (k, w) :: rest, key, v =>
    if k = key then (key, v) :: rest else (k, w) :: dictSet rest key v

/-- The post-processing step of `generate_roast` (roast_service.py lines
189-191): `confidence = roast_data.get("confidence_rating", 5);
roast_data["confidence_rating"] = max(0, min(10, confidence))`.  The upstream
model interaction has already normalized `roast_data` to a dict at this
point. -/
def generate_roast_post (roast_data : List (String × Py)) :
    Except String (List (String × Py)) :=
  let confidence := pyGet roast_data "confidence_rating" (Py.num 5)
  match pyMin (Py.num 10) confidence with
  | Except.error e => Except.error e
  | Except.ok m =>
    match pyMax (Py.num 0) m with
    | Except.error e => Except.error e
    | Except.ok c => Except.ok (dictSet roast_data "confidence_rating" c)

/-- `RoastResult` as described by the data model: the five string-typed
fields consumed by `build_narration_text` (`roast_data.get` with the
defaults `""`, `[]`, `""` for the three fields it reads). -/
structure RoastResult where
  overall_vibe : String
  roast_lines : List String
  confidence_rating : ℚ
  style_tags : List String
  one_liner : String

/-- `build_narration_text` from `roast_service.py`, translated statement by
statement: Python `if roast_lines:` and `if one_liner:` are truthiness
(non-emptiness) tests. -/
def build_narration_text (roast_data : RoastResult) : String :=
  let text := roast_data.overall_vibe ++ ". "
  let text := if roast_data.roast_lines ≠ [] then text ++ String.intercalate " " roast_data.roast_lines else text
  let text := if roast_data.one_liner ≠ "" then text ++ " And here\x27s the best part: " ++ roast_data.one_liner else text
  text

/-- The narration shape as the specification words it: `overall_vibe + ". "`,
then the roast lines joined by single spaces (omitted when empty), then the
one-liner connective when present. -/
def narration_text_spec (roast_data : RoastResult) : String :=
  roast_data.overall_vibe ++ ". "
    ++ (if roast_data.roast_lines = [] then "" else String.intercalate " " roast_data.roast_lines)
    ++ (if roast_data.one_liner = "" then "" else " And here\x27s the best part: " ++ roast_data.one_liner)

/-! ### `decode_audio.py` -/

/-- Little-endian 16-bit field of `struct.pack` (format `H`). -/
def u16le (n : Nat) : List Nat := [n % 256, n / 256 % 256]

/-- Little-endian 32-bit field of `struct.pack` (format `I`). -/
def u32le (n : Nat) : List Nat :=
  [n % 256, n / 256 % 256, n / 2 ^ 16 % 256, n / 2 ^ 24 % 256]

/-- `create_wav_header` from `decode_audio.py`: the canonical 44-byte
RIFF/WAVE header, byte for byte (`RIFF`, size `36+data_size`, `WAVE`;
`fmt ` chunk of size 16 with PCM format code 1; `data` chunk of size
`data_size`). -/
def create_wav_header (data_size : Nat) (sample_rate : Nat := 24000)
    (num_channels : Nat := 1) (bits_per_sample : Nat := 16) : List Nat :=
  let byte_rate := sample_rate * num_channels * bits_per_sample / 8
  let block_align := num_channels * bits_per_sample / 8
  ([82, 73, 70, 70] ++ u32le (36 + data_size) ++ [87, 65, 86, 69])
    ++ ([102, 109, 116, 32] ++ u32le 16 ++ u16le 1 ++ u16le num_channels
        ++ u32le sample_rate ++ u32le byte_rate ++ u16le block_align ++ u16le bits_per_sample)
    ++ ([100, 97, 116, 97] ++ u32le data_size)

/-- Decode a 4-byte little-endian field. -/
def decodeU32le : List Nat → Nat
  | [a, b, c, d] => a + 256 * b + 65536 * c + 16777216 * d
  | _ => 0

/-! ## Theorems -/

/-- Decoding a 4-byte little-endian field recovers values below `2^32`. -/
theorem decodeU32le_u32le (n : Nat) (h : n < 2 ^ 32) : decodeU32le (u32le n) = n := by
  simp only [decodeU32le, u32le]
  omega

/-- C10: for every input string, `estimate_audio_duration` returns a value in
`[3, 120]`, equal to 0.4 seconds per whitespace-separated word clamped to
that range (the spec never states the bounds). -/
theorem estimate_audio_duration_bounds (text : String) :
    3 ≤ estimate_audio_duration text ∧ estimate_audio_duration text ≤ 120 ∧
    estimate_audio_duration text
      = max 3 (min 120 (((splitWords text).length : ℚ) * 0.4)) := by
  refine ⟨le_max_left _ _, max_le (by norm_num) (min_le_left _ _), rfl⟩

/-- C8: `build_narration_text` is the pure concatenation the specification
describes (vibe, then space-joined roast lines when non-empty, then the
one-liner connective when present), and on the concrete example
`{overall_vibe: "V", roast_lines: ["a","b"], one_liner: "L"}` it yields
`"V. a b And here's the best part: L"`. -/
theorem build_narration_text_correct :
    (∀ r : RoastResult, build_narration_text r = narration_text_spec r) ∧
    build_narration_text ⟨"V", ["a", "b"], 5, [], "L"⟩
      = "V. a b And here\x27s the best part: L" := by
  constructor
  · intro r
    unfold build_narration_text narration_text_spec
    by_cases hl : r.roast_lines = [] <;> by_cases ho : r.one_liner = "" <;>
      simp [hl, ho, ← String.append_assoc]
  · rfl

/-- C9: the WAV header is exactly 44 bytes; its RIFF size field decodes to
`36 + dataSize`, the fmt chunk declares PCM format code 1, the data chunk
size field decodes to `dataSize`, and prepending the header to the PCM bytes
then stripping the first 44 bytes recovers the PCM bytes exactly. -/
theorem create_wav_header_ok (data_size sample_rate num_channels bits_per_sample : Nat)
    (pcm : List Nat) (h : 36 + data_size < 2 ^ 32) :
    (create_wav_header data_size sample_rate num_channels bits_per_sample).length = 44 ∧
    decodeU32le (((create_wav_header data_size sample_rate num_channels bits_per_sample).drop 4).take 4)
      = 36 + data_size ∧
    ((create_wav_header data_size sample_rate num_channels bits_per_sample).drop 20).take 2 = [1, 0] ∧
    decodeU32le (((create_wav_header data_size sample_rate num_channels bits_per_sample).drop 40).take 4)
      = data_size ∧
    (create_wav_header data_size sample_rate num_channels bits_per_sample ++ pcm).drop 44 = pcm := by
  refine ⟨rfl, ?_, rfl, ?_, rfl⟩
  · have e : ((create_wav_header data_size sample_rate num_channels bits_per_sample).drop 4).take 4
        = u32le (36 + data_size) := rfl
    rw [e, decodeU32le_u32le _ h]
  · have e : ((create_wav_header data_size sample_rate num_channels bits_per_sample).drop 40).take 4
        = u32le data_size := rfl
    rw [e, decodeU32le_u32le _ (by omega)]

/-- Witness for C9 at `dataSize = 8`, three PCM bytes. -/
theorem create_wav_header_ok_witness :
    36 + 8 < 2 ^ 32 ∧ (create_wav_header 8 24000 1 16 ++ [1, 2, 3]).drop 44 = [1, 2, 3] :=
  ⟨by decide, (create_wav_header_ok 8 24000 1 16 [1, 2, 3] (by decide)).2.2.2.2⟩

/-- C5: for duration 12 the fallback generator produces exactly the 4-phase
script with keyframe boundaries [0,3], [3,6], [6,9], [9,12],
`metadata.fallback = true`, and the transcript echoed, truncated to the
first 100 characters plus an ellipsis when longer than 100 characters. -/
theorem generate_default_animation_script_at_12 (t : String) :
    generate_default_animation_script 12 t = Py.dict [
      ("metadata", Py.dict [
        ("duration", Py.num 12),
        ("transcript", Py.str (if t.length > 100 then t.take 100 ++ "..." else t)),
        ("intensity", Py.str "medium"),
        ("style", Py.str "comedic"),
        ("notes", Py.str "Generated using fallback pattern"),
        ("fallback", Py.bool true)]),
      ("timeline", Py.list [
        Py.dict [("startTime", Py.num 0), ("endTime", Py.num 3),
          ("animation", Py.str "idle"), ("expression", Py.str "neutral"),
          ("intensity", Py.num 0.5), ("notes", Py.str "Opening - neutral stance, setting up")],
        Py.dict [("startTime", Py.num 3), ("endTime", Py.num 6),
          ("animation", Py.str "sitTalk"), ("expression", Py.str "smile"),
          ("intensity", Py.num 0.7), ("notes", Py.str "Building - friendly, conversational tone")],
        Py.dict [("startTime", Py.num 6), ("endTime", Py.num 9),
          ("animation", Py.str "spellcast"), ("expression", Py.str "laugh"),
          ("intensity", Py.num 0.9), ("notes", Py.str "Climax - high energy, emphasizing humor")],
        Py.dict [("startTime", Py.num 9), ("endTime", Py.num 12),
          ("animation", Py.str "relax"), ("expression", Py.str "smile"),
          ("intensity", Py.num 0.6), ("notes", Py.str "Closing - settling down, satisfied expression")]])] := by
  norm_num [generate_default_animation_script]

/-- Looking up the key just written by Python dict assignment yields the
assigned value. -/
theorem pyLookup_dictSet (d : List (String × Py)) (key : String) (v : Py) :
    pyLookup (dictSet d key v) key = some v := by
  induction d with
  | nil => simp [dictSet, pyLookup]
  | cons kv rest ih =>
    obtain ⟨k, w⟩ := kv
    by_cases h : k = key
    · simp [dictSet, pyLookup, h]
    · simp [dictSet, pyLookup, h, ih]

/-- C7: after the `generate_roast` post-processing the stored
`confidence_rating` is numeric in `[0, 10]` whenever the step returns; the
model values -5, 0, 10, 15 map to 0, 0, 10, 10 respectively, and 5 is
substituted (then clamped to 5) when the field is absent. -/
theorem generate_roast_confidence_clamped :
    (∀ roast_data result : List (String × Py),
      generate_roast_post roast_data = Except.ok result →
      ∃ v q, pyLookup result "confidence_rating" = some v ∧
        pyNum v = some q ∧ 0 ≤ q ∧ q ≤ 10) ∧
    generate_roast_post [("confidence_rating", Py.num (-5))]
      = Except.ok [("confidence_rating", Py.num 0)] ∧
    generate_roast_post [("confidence_rating", Py.num 0)]
      = Except.ok [("confidence_rating", Py.num 0)] ∧
    generate_roast_post [("confidence_rating", Py.num 10)]
      = Except.ok [("confidence_rating", Py.num 10)] ∧
    generate_roast_post [("confidence_rating", Py.num 15)]
      = Except.ok [("confidence_rating", Py.num 10)] ∧
    generate_roast_post [] = Except.ok [("confidence_rating", Py.num 5)] := by
  refine ⟨?_, ?_, ?_, ?_, ?_, ?_⟩
  · intro roast_data result h
    rcases hqc : pyNum (pyGet roast_data "confidence_rating" (Py.num 5)) with _ | qc
    · have ha : asNum (pyGet roast_data "confidence_rating" (Py.num 5))
          = Except.error "TypeError: unsupported comparison" := by
        unfold asNum
        rw [hqc]
      have hbad : generate_roast_post roast_data
          = Except.error "TypeError: unsupported comparison" := by
        simp [generate_roast_post, pyMin, pyMax, ha,
          show asNum (Py.num 10) = Except.ok 10 from rfl]
      rw [hbad] at h
      simp at h
    · have ha : asNum (pyGet roast_data "confidence_rating" (Py.num 5)) = Except.ok qc := by
        unfold asNum
        rw [hqc]
      by_cases h10 : qc < 10
      · by_cases h0 : qc > 0
        · have hpost : generate_roast_post roast_data = Except.ok (dictSet roast_data
              "confidence_rating" (pyGet roast_data "confidence_rating" (Py.num 5))) := by
            simp [generate_roast_post, pyMin, pyMax, ha, h10, h0,
              show asNum (Py.num 10) = Except.ok 10 from rfl,
              show asNum (Py.num 0) = Except.ok 0 from rfl]
          rw [hpost, Except.ok.injEq] at h
          subst h
          exact ⟨_, qc, pyLookup_dictSet _ _ _, hqc, le_of_lt h0, le_of_lt h10⟩
        · have hpost : generate_roast_post roast_data = Except.ok (dictSet roast_data
              "confidence_rating" (Py.num 0)) := by
            simp [generate_roast_post, pyMin, pyMax, ha, h10, h0,
              show asNum (Py.num 10) = Except.ok 10 from rfl,
              show asNum (Py.num 0) = Except.ok 0 from rfl]
          rw [hpost, Except.ok.injEq] at h
          subst h
          exact ⟨Py.num 0, 0, pyLookup_dictSet _ _ _, rfl, le_refl 0, by norm_num⟩
      · have hpost : generate_roast_post roast_data = Except.ok (dictSet roast_data
            "confidence_rating" (Py.num 10)) := by
          simp [generate_roast_post, pyMin, pyMax, ha, h10,
            show asNum (Py.num 10) = Except.ok 10 from rfl,
            show asNum (Py.num 0) = Except.ok 0 from rfl,
            show (0 : ℚ) < 10 from by norm_num]
        rw [hpost, Except.ok.injEq] at h
        subst h
        exact ⟨Py.num 10, 10, pyLookup_dictSet _ _ _, rfl, by norm_num, le_refl 10⟩
  · norm_num [generate_roast_post, pyMin, pyMax, asNum, pyNum, pyGet, pyLookup, dictSet]
  · norm_num [generate_roast_post, pyMin, pyMax, asNum, pyNum, pyGet, pyLookup, dictSet]
  · norm_num [generate_roast_post, pyMin, pyMax, asNum, pyNum, pyGet, pyLookup, dictSet]
  · norm_num [generate_roast_post, pyMin, pyMax, asNum, pyNum, pyGet, pyLookup, dictSet]
  · norm_num [generate_roast_post, pyMin, pyMax, asNum, pyNum, pyGet, pyLookup, dictSet]

/-- Witness for C7: a dict whose confidence 7 is kept, with the clamped
bounds obtained from the theorem. -/
theorem generate_roast_confidence_clamped_witness :
    generate_roast_post [("confidence_rating", Py.num 7)]
      = Except.ok [("confidence_rating", Py.num 7)] ∧
    ∃ v q, pyLookup [("confidence_rating", Py.num 7)] "confidence_rating" = some v ∧
      pyNum v = some q ∧ 0 ≤ q ∧ q ≤ 10 := by
  have h : generate_roast_post [("confidence_rating", Py.num 7)]
      = Except.ok [("confidence_rating", Py.num 7)] := by
    norm_num [generate_roast_post, pyMin, pyMax, asNum, pyNum, pyGet, pyLookup, dictSet]
  exact ⟨h, generate_roast_confidence_clamped.1 _ _ h⟩

/-- `clamp_intensity` always lands in `[0, 1]`. -/
theorem clamp_intensity_mem (v : Py) : 0 ≤ clamp_intensity v ∧ clamp_intensity v ≤ 1 := by
  unfold clamp_intensity
  rcases pyNum v with _ | q
  · norm_num [DEFAULT_INTENSITY]
  · exact ⟨le_max_left _ _, max_le (by norm_num) (min_le_left _ _)⟩

/-- Clamping an already-clamped intensity is the identity. -/
theorem clamp_intensity_idem (v : Py) :
    clamp_intensity (Py.num (clamp_intensity v)) = clamp_intensity v := by
  obtain ⟨h0, h1⟩ := clamp_intensity_mem v
  have e : clamp_intensity (Py.num (clamp_intensity v)) = max 0 (min 1 (clamp_intensity v)) := rfl
  rw [e, min_eq_right h1, max_eq_right h0]

/-- Sanitizing an already-sanitized keyframe is the identity. -/
theorem sanitize_frame_idem (f : List (String × Py)) :
    sanitize_frame (sanitize_frame f) = sanitize_frame f := by
  simp [sanitize_frame, pyGet, pyLookup, clamp_intensity_idem]

/-- Sanitizing an already-sanitized timeline is the identity. -/
theorem sanitize_timeline_idem (frames : List Py) :
    sanitize_timeline (sanitize_timeline frames) = sanitize_timeline frames := by
  induction frames with
  | nil => rfl
  | cons fr rest ih => cases fr <;> simp [sanitize_timeline, ih, sanitize_frame_idem]

/-- C6: `sanitize_animation_script` is idempotent — whenever sanitization
succeeds, sanitizing its output returns the output unchanged (same metadata,
same keyframes with the same six fields and values). -/
theorem sanitize_animation_script_idempotent (script out : Py)
    (h : sanitize_animation_script script = some out) :
    sanitize_animation_script out = some out := by
  cases script with
  | dict d =>
    simp only [sanitize_animation_script] at h
    rcases htl : pyGet d "timeline" (Py.list []) with _ | b | q | s | frames | kvs <;>
      rw [htl] at h
    case list =>
      have h2 : some (Py.dict [("metadata", pyGet d "metadata" (Py.dict [])),
          ("timeline", Py.list (sanitize_timeline frames))]) = some out := h
      obtain rfl := Option.some.inj h2
      simp [sanitize_animation_script, pyGet, pyLookup, sanitize_timeline_idem]
    all_goals simp at h
  | none => simp [sanitize_animation_script] at h
  | bool b => simp [sanitize_animation_script] at h
  | num q => simp [sanitize_animation_script] at h
  | str s => simp [sanitize_animation_script] at h
  | list xs => simp [sanitize_animation_script] at h

/-- Witness for C6: a raw script with an out-of-range intensity sanitizes to
a fixed point of the sanitizer. -/
theorem sanitize_animation_script_idempotent_witness :
    sanitize_animation_script
        (Py.dict [("timeline", Py.list [Py.dict [("intensity", Py.num 2)]])])
      = some (Py.dict [("metadata", Py.dict []),
          ("timeline", Py.list [Py.dict [("startTime", Py.num 0), ("endTime", Py.num 0),
            ("animation", Py.str "idle"), ("expression", Py.str "neutral"),
            ("intensity", Py.num 1), ("notes", Py.str "")]])]) ∧
    sanitize_animation_script
        (Py.dict [("metadata", Py.dict []),
          ("timeline", Py.list [Py.dict [("startTime", Py.num 0), ("endTime", Py.num 0),
            ("animation", Py.str "idle"), ("expression", Py.str "neutral"),
            ("intensity", Py.num 1), ("notes", Py.str "")]])])
      = some (Py.dict [("metadata", Py.dict []),
          ("timeline", Py.list [Py.dict [("startTime", Py.num 0), ("endTime", Py.num 0),
            ("animation", Py.str "idle"), ("expression", Py.str "neutral"),
            ("intensity", Py.num 1), ("notes", Py.str "")]])]) := by
  have h : sanitize_animation_script
      (Py.dict [("timeline", Py.list [Py.dict [("intensity", Py.num 2)]])])
      = some (Py.dict [("metadata", Py.dict []),
        ("timeline", Py.list [Py.dict [("startTime", Py.num 0), ("endTime", Py.num 0),
          ("animation", Py.str "idle"), ("expression", Py.str "neutral"),
          ("intensity", Py.num 1), ("notes", Py.str "")]])]) := by
    simp [sanitize_animation_script, sanitize_timeline, sanitize_frame, pyGet, pyLookup,
      clamp_intensity, pyNum, DEFAULT_ANIMATION, DEFAULT_EXPRESSION, DEFAULT_INTENSITY]
  exact ⟨h, sanitize_animation_script_idempotent _ _ h⟩

/-- On every return path of `validate_animation_script`, the returned
`is_valid` flag is `true` exactly when the returned issue list is empty
(shared helper: the validator either returns `(issues == [], issues)` or an
explicit `(False, non-empty issues)`). -/
theorem validate_ok_iff (script : Py) (expected_duration : ℚ) (r : Bool × List String)
    (h : validate_animation_script script expected_duration = Except.ok r) :
    r.1 = true ↔ r.2 = [] := by
  cases script with
  | dict d =>
    simp only [validate_animation_script] at h
    by_cases htl : (pyGet d "timeline" (Py.list [])).truthy = false
    · rw [if_pos htl, Except.ok.injEq] at h
      subst h
      simp [List.isEmpty_iff]
    · rw [if_neg htl] at h
      rcases hT : pyGet d "timeline" (Py.list []) with _ | b | q | s | frames | kvs <;>
        simp only [hT] at h
      all_goals try (rw [Except.ok.injEq] at h; subst h; simp)
      rcases hK : keyframeLoop frames 0 expected_duration with e | frameIssues <;>
        simp only [hK] at h
      · exact Except.noConfusion h
      · rcases hC : _validate_timeline_continuity frames expected_duration with e | contIssues <;>
          simp only [hC] at h
        · exact Except.noConfusion h
        · rw [Except.ok.injEq] at h
          subst h
          simp [List.isEmpty_iff]
  | none =>
    rw [show validate_animation_script Py.none expected_duration
        = Except.ok (false, ["Script must be a dictionary"]) from rfl, Except.ok.injEq] at h
    subst h
    simp
  | bool b =>
    rw [show validate_animation_script (Py.bool b) expected_duration
        = Except.ok (false, ["Script must be a dictionary"]) from rfl, Except.ok.injEq] at h
    subst h
    simp
  | num q =>
    rw [show validate_animation_script (Py.num q) expected_duration
        = Except.ok (false, ["Script must be a dictionary"]) from rfl, Except.ok.injEq] at h
    subst h
    simp
  | str s =>
    rw [show validate_animation_script (Py.str s) expected_duration
        = Except.ok (false, ["Script must be a dictionary"]) from rfl, Except.ok.injEq] at h
    subst h
    simp
  | list xs =>
    rw [show validate_animation_script (Py.list xs) expected_duration
        = Except.ok (false, ["Script must be a dictionary"]) from rfl, Except.ok.injEq] at h
    subst h
    simp

/-- C3: whenever `validate_animation_script` returns (on every return path,
including the early returns for non-dict scripts, empty timelines and
non-list timelines), `ok = true` holds if and only if the returned issues
list is empty. -/
theorem validate_animation_script_ok_iff_no_issues (script : Py) (expected_duration : ℚ)
    (is_valid : Bool) (issues : List String)
    (h : validate_animation_script script expected_duration = Except.ok (is_valid, issues)) :
    is_valid = true ↔ issues = [] :=
  validate_ok_iff script expected_duration (is_valid, issues) h

/-- Witness for C3 on a non-dict script. -/
theorem validate_animation_script_ok_iff_no_issues_witness :
    validate_animation_script (Py.str "x") 5
      = Except.ok (false, ["Script must be a dictionary"]) ∧
    (false = true ↔ ["Script must be a dictionary"] = ([] : List String)) := by
  have h : validate_animation_script (Py.str "x") 5
      = Except.ok (false, ["Script must be a dictionary"]) := rfl
  exact ⟨h, validate_animation_script_ok_iff_no_issues _ _ _ _ h⟩

/-- C1: `generate_animation_script` never raises past its boundary — it is a
total function of the (abstracted) model result, and whenever the model call
returns `None`, or validation returns `ok = false`, or validation raises, or
sanitization returns `None` (so that the logging line would raise), the
caller receives the deterministic fallback script. -/
theorem generate_animation_script_never_raises (modelResult : Option Py) (transcript : String)
    (duration_seconds : ℚ) :
    (modelResult = Option.none →
      generate_animation_script modelResult transcript duration_seconds
        = generate_default_animation_script duration_seconds transcript) ∧
    (∀ s r, modelResult = some s →
      validate_animation_script s duration_seconds = Except.ok r → r.1 = false →
      generate_animation_script modelResult transcript duration_seconds
        = generate_default_animation_script duration_seconds transcript) ∧
    (∀ s e, modelResult = some s →
      validate_animation_script s duration_seconds = Except.error e →
      generate_animation_script modelResult transcript duration_seconds
        = generate_default_animation_script duration_seconds transcript) ∧
    (∀ s r, modelResult = some s →
      validate_animation_script s duration_seconds = Except.ok r →
      sanitize_animation_script s = Option.none →
      generate_animation_script modelResult transcript duration_seconds
        = generate_default_animation_script duration_seconds transcript) := by
  have main2 : ∀ s r, modelResult = some s →
      validate_animation_script s duration_seconds = Except.ok r → r.1 = false →
      generate_animation_script modelResult transcript duration_seconds
        = generate_default_animation_script duration_seconds transcript := by
    intro s r hm hv hval
    subst hm
    obtain ⟨b, issues⟩ := r
    replace hval : b = false := hval
    subst hval
    have hne : issues ≠ [] := by
      intro hnil
      have hiff := validate_ok_iff s duration_seconds (false, issues) hv
      exact absurd (hiff.mpr hnil) (by simp)
    have hie : issues.isEmpty = false := by
      cases hi : issues.isEmpty
      · rfl
      · exact absurd (List.isEmpty_iff.mp hi) hne
    simp [generate_animation_script, generate_animation_script_try, hv, hie]
  refine ⟨?_, main2, ?_, ?_⟩
  · intro h
    subst h
    rfl
  · intro s e hm hv
    subst hm
    simp [generate_animation_script, generate_animation_script_try, hv]
  · intro s r hm hv hs
    cases hb : r.1
    · exact main2 s r hm hv hb
    · subst hm
      obtain ⟨b, issues⟩ := r
      replace hb : b = true := hb
      subst hb
      have hiss : issues = [] := (validate_ok_iff s duration_seconds (true, issues) hv).mp rfl
      subst hiss
      simp [generate_animation_script, generate_animation_script_try, hv, hs]

/-- Witness for C1: a failed model call (result `None`) yields the fallback
script. -/
theorem generate_animation_script_never_raises_witness :
    generate_animation_script Option.none "hi" 5 = generate_default_animation_script 5 "hi" :=
  (generate_animation_script_never_raises Option.none "hi" 5).1 rfl

/-- Evaluation helper: the spec's two-keyframe timeline under expected
duration 10 (with well-formed metadata) fails validation with exactly the
minimum-keyframe-count issue. -/
theorem two_keyframe_eval_10 :
    validate_animation_script
      (Py.dict [
        ("metadata", Py.dict [("duration", Py.num 10), ("transcript", Py.str "roast text"),
          ("intensity", Py.str "medium")]),
        ("timeline", Py.list [
          Py.dict [("startTime", Py.num 0), ("endTime", Py.num 5), ("animation", Py.str "idle"),
            ("expression", Py.str "neutral"), ("intensity", Py.num 0.5)],
          Py.dict [("startTime", Py.num 5), ("endTime", Py.num 10), ("animation", Py.str "run"),
            ("expression", Py.str "laugh"), ("intensity", Py.num 0.9)]])]) 10
      = Except.ok (false, ["Timeline should have at least 3 keyframes"]) := by
  have hm : _validate_metadata (Py.dict [("duration", Py.num 10), ("transcript", Py.str "roast text"),
      ("intensity", Py.str "medium")]) 10 = [] := by
    simp [_validate_metadata, pyGet, pyLookup, pyNum, Py.truthy, isMetaIntensity,
      show ¬((10 : ℚ) ≤ 0) from by norm_num,
      show ¬(|(10 : ℚ) - 10| > 2) from by norm_num]
  have hk1 : _validate_keyframe (Py.dict [("startTime", Py.num 0), ("endTime", Py.num 5),
      ("animation", Py.str "idle"), ("expression", Py.str "neutral"), ("intensity", Py.num 0.5)]) 0 10
      = Except.ok [] := by
    simp [_validate_keyframe, pyGet, pyLookup, pyNum, asNum, dictContains, Py.truthy, Py.isNoneV,
      AVAILABLE_ANIMATIONS, AVAILABLE_EXPRESSIONS,
      show ¬((0 : ℚ) < 0) from by norm_num,
      show ¬((5 : ℚ) ≤ 0) from by norm_num,
      show ¬((5 : ℚ) > 10 + 1) from by norm_num,
      show (0 : ℚ) ≤ 0.5 from by norm_num,
      show (0.5 : ℚ) ≤ 1 from by norm_num]
  have hk2 : _validate_keyframe (Py.dict [("startTime", Py.num 5), ("endTime", Py.num 10),
      ("animation", Py.str "run"), ("expression", Py.str "laugh"), ("intensity", Py.num 0.9)]) 1 10
      = Except.ok [] := by
    simp [_validate_keyframe, pyGet, pyLookup, pyNum, asNum, dictContains, Py.truthy, Py.isNoneV,
      AVAILABLE_ANIMATIONS, AVAILABLE_EXPRESSIONS,
      show ¬((5 : ℚ) < 0) from by norm_num,
      show ¬((10 : ℚ) ≤ 5) from by norm_num,
      show ¬((10 : ℚ) > 10 + 1) from by norm_num,
      show (0 : ℚ) ≤ 0.9 from by norm_num,
      show (0.9 : ℚ) ≤ 1 from by norm_num]
  have hkl : keyframeLoop [
      Py.dict [("startTime", Py.num 0), ("endTime", Py.num 5), ("animation", Py.str "idle"),
        ("expression", Py.str "neutral"), ("intensity", Py.num 0.5)],
      Py.dict [("startTime", Py.num 5), ("endTime", Py.num 10), ("animation", Py.str "run"),
        ("expression", Py.str "laugh"), ("intensity", Py.num 0.9)]] 0 10 = Except.ok [] := by
    simp [keyframeLoop, hk1, hk2]
  have hc : _validate_timeline_continuity [
      Py.dict [("startTime", Py.num 0), ("endTime", Py.num 5), ("animation", Py.str "idle"),
        ("expression", Py.str "neutral"), ("intensity", Py.num 0.5)],
      Py.dict [("startTime", Py.num 5), ("endTime", Py.num 10), ("animation", Py.str "run"),
        ("expression", Py.str "laugh"), ("intensity", Py.num 0.9)]] 10 = Except.ok [] := by
    simp [_validate_timeline_continuity, gapIssuesLoop, pyAttrGet, pyGet, pyLookup, pyNum, asNum,
      List.getLast!,
      show ¬((0 : ℚ) > 0.5) from by norm_num,
      show ¬((10 : ℚ) < 10 - 1) from by norm_num,
      show ¬((5 : ℚ) - 5 > 1) from by norm_num]
  simp [validate_animation_script, pyGet, pyLookup, Py.truthy, ANIMATION_CONFIG_max_keyframes,
    hm, hkl, hc]

/-- Evaluation helper: the same timeline under expected duration 20 fails
with a duration-mismatch issue (among others). -/
theorem two_keyframe_eval_20 :
    validate_animation_script
      (Py.dict [
        ("metadata", Py.dict [("duration", Py.num 10), ("transcript", Py.str "roast text"),
          ("intensity", Py.str "medium")]),
        ("timeline", Py.list [
          Py.dict [("startTime", Py.num 0), ("endTime", Py.num 5), ("animation", Py.str "idle"),
            ("expression", Py.str "neutral"), ("intensity", Py.num 0.5)],
          Py.dict [("startTime", Py.num 5), ("endTime", Py.num 10), ("animation", Py.str "run"),
            ("expression", Py.str "laugh"), ("intensity", Py.num 0.9)]])]) 20
      = Except.ok (false, ["Duration mismatch", "Timeline should have at least 3 keyframes",
          "Timeline ends before expected duration"]) := by
  have hm : _validate_metadata (Py.dict [("duration", Py.num 10), ("transcript", Py.str "roast text"),
      ("intensity", Py.str "medium")]) 20 = ["Duration mismatch"] := by
    simp [_validate_metadata, pyGet, pyLookup, pyNum, Py.truthy, isMetaIntensity,
      show ¬((10 : ℚ) ≤ 0) from by norm_num,
      show |(10 : ℚ) - 20| > 2 from by norm_num]
  have hk1 : _validate_keyframe (Py.dict [("startTime", Py.num 0), ("endTime", Py.num 5),
      ("animation", Py.str "idle"), ("expression", Py.str "neutral"), ("intensity", Py.num 0.5)]) 0 20
      = Except.ok [] := by
    simp [_validate_keyframe, pyGet, pyLookup, pyNum, asNum, dictContains, Py.truthy, Py.isNoneV,
      AVAILABLE_ANIMATIONS, AVAILABLE_EXPRESSIONS,
      show ¬((0 : ℚ) < 0) from by norm_num,
      show ¬((5 : ℚ) ≤ 0) from by norm_num,
      show ¬((5 : ℚ) > 20 + 1) from by norm_num,
      show (0 : ℚ) ≤ 0.5 from by norm_num,
      show (0.5 : ℚ) ≤ 1 from by norm_num]
  have hk2 : _validate_keyframe (Py.dict [("startTime", Py.num 5), ("endTime", Py.num 10),
      ("animation", Py.str "run"), ("expression", Py.str "laugh"), ("intensity", Py.num 0.9)]) 1 20
      = Except.ok [] := by
    simp [_validate_keyframe, pyGet, pyLookup, pyNum, asNum, dictContains, Py.truthy, Py.isNoneV,
      AVAILABLE_ANIMATIONS, AVAILABLE_EXPRESSIONS,
      show ¬((5 : ℚ) < 0) from by norm_num,
      show ¬((10 : ℚ) ≤ 5) from by norm_num,
      show ¬((10 : ℚ) > 20 + 1) from by norm_num,
      show (0 : ℚ) ≤ 0.9 from by norm_num,
      show (0.9 : ℚ) ≤ 1 from by norm_num]
  have hkl : keyframeLoop [
      Py.dict [("startTime", Py.num 0), ("endTime", Py.num 5), ("animation", Py.str "idle"),
        ("expression", Py.str "neutral"), ("intensity", Py.num 0.5)],
      Py.dict [("startTime", Py.num 5), ("endTime", Py.num 10), ("animation", Py.str "run"),
        ("expression", Py.str "laugh"), ("intensity", Py.num 0.9)]] 0 20 = Except.ok [] := by
    simp [keyframeLoop, hk1, hk2]
  have hc : _validate_timeline_continuity [
      Py.dict [("startTime", Py.num 0), ("endTime", Py.num 5), ("animation", Py.str "idle"),
        ("expression", Py.str "neutral"), ("intensity", Py.num 0.5)],
      Py.dict [("startTime", Py.num 5), ("endTime", Py.num 10), ("animation", Py.str "run"),
        ("expression", Py.str "laugh"), ("intensity", Py.num 0.9)]] 20
      = Except.ok ["Timeline ends before expected duration"] := by
    simp [_validate_timeline_continuity, gapIssuesLoop, pyAttrGet, pyGet, pyLookup, pyNum, asNum,
      List.getLast!,
      show ¬((0 : ℚ) > 0.5) from by norm_num,
      show (10 : ℚ) < 20 - 1 from by norm_num,
      show ¬((5 : ℚ) - 5 > 1) from by norm_num]
  simp [validate_animation_script, pyGet, pyLookup, Py.truthy, ANIMATION_CONFIG_max_keyframes,
    hm, hkl, hc]

/-- C2 counterexample: even with well-formed metadata, the spec's
two-keyframe timeline `[{0,5,idle,neutral,0.5},{5,10,run,laugh,0.9}]` with
expected duration 10 does not validate to `ok = true` with empty issues: the
validator unconditionally requires at least 3 keyframes. -/
theorem validate_two_keyframe_timeline_counterexample :
    validate_animation_script
      (Py.dict [
        ("metadata", Py.dict [("duration", Py.num 10), ("transcript", Py.str "roast text"),
          ("intensity", Py.str "medium")]),
        ("timeline", Py.list [
          Py.dict [("startTime", Py.num 0), ("endTime", Py.num 5), ("animation", Py.str "idle"),
            ("expression", Py.str "neutral"), ("intensity", Py.num 0.5)],
          Py.dict [("startTime", Py.num 5), ("endTime", Py.num 10), ("animation", Py.str "run"),
            ("expression", Py.str "laugh"), ("intensity", Py.num 0.9)]])]) 10
      ≠ Except.ok (true, []) := by
  rw [two_keyframe_eval_10]
  simp

/-- C2 amended: the two-keyframe timeline with expected duration 10
validates to `ok = false` with exactly the minimum-keyframe-count issue, and
with expected duration 20 it fails with a duration-mismatch issue among the
issues. -/
theorem validate_two_keyframe_timeline_amended :
    validate_animation_script
      (Py.dict [
        ("metadata", Py.dict [("duration", Py.num 10), ("transcript", Py.str "roast text"),
          ("intensity", Py.str "medium")]),
        ("timeline", Py.list [
          Py.dict [("startTime", Py.num 0), ("endTime", Py.num 5), ("animation", Py.str "idle"),
            ("expression", Py.str "neutral"), ("intensity", Py.num 0.5)],
          Py.dict [("startTime", Py.num 5), ("endTime", Py.num 10), ("animation", Py.str "run"),
            ("expression", Py.str "laugh"), ("intensity", Py.num 0.9)]])]) 10
      = Except.ok (false, ["Timeline should have at least 3 keyframes"]) ∧
    validate_animation_script
      (Py.dict [
        ("metadata", Py.dict [("duration", Py.num 10), ("transcript", Py.str "roast text"),
          ("intensity", Py.str "medium")]),
        ("timeline", Py.list [
          Py.dict [("startTime", Py.num 0), ("endTime", Py.num 5), ("animation", Py.str "idle"),
            ("expression", Py.str "neutral"), ("intensity", Py.num 0.5)],
          Py.dict [("startTime", Py.num 5), ("endTime", Py.num 10), ("animation", Py.str "run"),
            ("expression", Py.str "laugh"), ("intensity", Py.num 0.9)]])]) 20
      = Except.ok (false, ["Duration mismatch", "Timeline should have at least 3 keyframes",
          "Timeline ends before expected duration"]) :=
  ⟨two_keyframe_eval_10, two_keyframe_eval_20⟩

/-- A well-formed keyframe (catalog animation and expression, intensity in
`[0,1]`, coherent times) passes `_validate_keyframe` with no issues. -/
theorem _validate_keyframe_wellformed (i : Nat) (d s e q : ℚ) (a x n : String)
    (ha : AVAILABLE_ANIMATIONS.contains a = true)
    (hx : AVAILABLE_EXPRESSIONS.contains x = true)
    (hae : a ≠ "") (hxe : x ≠ "")
    (hq0 : 0 ≤ q) (hq1 : q ≤ 1)
    (hs : ¬ s < 0) (hes : ¬ e ≤ s) (hed : ¬ e > d + 1) :
    _validate_keyframe (Py.dict [("startTime", Py.num s), ("endTime", Py.num e),
      ("animation", Py.str a), ("expression", Py.str x), ("intensity", Py.num q),
      ("notes", Py.str n)]) i d = Except.ok [] := by
  simp [_validate_keyframe, pyGet, pyLookup, pyNum, asNum, dictContains, Py.truthy, Py.isNoneV,
    ha, hx, hae, hxe, hq0, hq1, hs, hes, hed]
  exact ⟨by simpa using ha, by simpa using hx⟩

/-- C4 amended: for every positive duration and every NON-EMPTY transcript,
the fallback script validates cleanly (`ok = true`, no issues).  (The
non-emptiness hypothesis is forced by the counterexample: an empty
transcript echo is falsy, so the validator reports it as missing.) -/
theorem generate_default_animation_script_valid (d : ℚ) (t : String)
    (hd : 0 < d) (ht : t ≠ "") :
    validate_animation_script (generate_default_animation_script d t) d
      = Except.ok (true, []) := by
  have htr : (if t.length > 100 then t.take 100 ++ "..." else t) ≠ "" := by
    split
    · intro hc
      have h2 := congrArg String.length hc
      have h3 : "...".length = 3 := rfl
      simp at h2
      omega
    · exact ht
  have hm : _validate_metadata (Py.dict [
      ("duration", Py.num d),
      ("transcript", Py.str (if t.length > 100 then t.take 100 ++ "..." else t)),
      ("intensity", Py.str "medium"),
      ("style", Py.str "comedic"),
      ("notes", Py.str "Generated using fallback pattern"),
      ("fallback", Py.bool true)]) d = [] := by
    simp [_validate_metadata, pyGet, pyLookup, pyNum, Py.truthy, isMetaIntensity, htr,
      not_le.mpr hd,
      show ¬(|d - d| > 2) from by rw [sub_self, abs_zero]; norm_num]
  have hkf1 : _validate_keyframe (Py.dict [("startTime", Py.num 0), ("endTime", Py.num (d * 0.25)),
      ("animation", Py.str "idle"), ("expression", Py.str "neutral"),
      ("intensity", Py.num 0.5), ("notes", Py.str "Opening - neutral stance, setting up")]) 0 d
      = Except.ok [] :=
    _validate_keyframe_wellformed 0 d 0 (d * 0.25) 0.5 "idle" "neutral" _
      (by decide) (by decide) (by decide) (by decide) (by norm_num) (by norm_num)
      (by norm_num) (not_le.mpr (by linarith)) (not_lt.mpr (by linarith))
  have hkf2 : _validate_keyframe (Py.dict [("startTime", Py.num (d * 0.25)), ("endTime", Py.num (d * 0.5)),
      ("animation", Py.str "sitTalk"), ("expression", Py.str "smile"),
      ("intensity", Py.num 0.7), ("notes", Py.str "Building - friendly, conversational tone")]) 1 d
      = Except.ok [] :=
    _validate_keyframe_wellformed 1 d (d * 0.25) (d * 0.5) 0.7 "sitTalk" "smile" _
      (by decide) (by decide) (by decide) (by decide) (by norm_num) (by norm_num)
      (not_lt.mpr (by linarith)) (not_le.mpr (by linarith)) (not_lt.mpr (by linarith))
  have hkf3 : _validate_keyframe (Py.dict [("startTime", Py.num (d * 0.5)), ("endTime", Py.num (d * 0.75)),
      ("animation", Py.str "spellcast"), ("expression", Py.str "laugh"),
      ("intensity", Py.num 0.9), ("notes", Py.str "Climax - high energy, emphasizing humor")]) 2 d
      = Except.ok [] :=
    _validate_keyframe_wellformed 2 d (d * 0.5) (d * 0.75) 0.9 "spellcast" "laugh" _
      (by decide) (by decide) (by decide) (by decide) (by norm_num) (by norm_num)
      (not_lt.mpr (by linarith)) (not_le.mpr (by linarith)) (not_lt.mpr (by linarith))
  have hkf4 : _validate_keyframe (Py.dict [("startTime", Py.num (d * 0.75)), ("endTime", Py.num d),
      ("animation", Py.str "relax"), ("expression", Py.str "smile"),
      ("intensity", Py.num 0.6), ("notes", Py.str "Closing - settling down, satisfied expression")]) 3 d
      = Except.ok [] :=
    _validate_keyframe_wellformed 3 d (d * 0.75) d 0.6 "relax" "smile" _
      (by decide) (by decide) (by decide) (by decide) (by norm_num) (by norm_num)
      (not_lt.mpr (by linarith)) (not_le.mpr (by linarith)) (not_lt.mpr (by linarith))
  have hkl : keyframeLoop [
      Py.dict [("startTime", Py.num 0), ("endTime", Py.num (d * 0.25)),
        ("animation", Py.str "idle"), ("expression", Py.str "neutral"),
        ("intensity", Py.num 0.5), ("notes", Py.str "Opening - neutral stance, setting up")],
      Py.dict [("startTime", Py.num (d * 0.25)), ("endTime", Py.num (d * 0.5)),
        ("animation", Py.str "sitTalk"), ("expression", Py.str "smile"),
        ("intensity", Py.num 0.7), ("notes", Py.str "Building - friendly, conversational tone")],
      Py.dict [("startTime", Py.num (d * 0.5)), ("endTime", Py.num (d * 0.75)),
        ("animation", Py.str "spellcast"), ("expression", Py.str "laugh"),
        ("intensity", Py.num 0.9), ("notes", Py.str "Climax - high energy, emphasizing humor")],
      Py.dict [("startTime", Py.num (d * 0.75)), ("endTime", Py.num d),
        ("animation", Py.str "relax"), ("expression", Py.str "smile"),
        ("intensity", Py.num 0.6), ("notes", Py.str "Closing - settling down, satisfied expression")]] 0 d
      = Except.ok [] := by
    simp [keyframeLoop, hkf1, hkf2, hkf3, hkf4]
  have hc : _validate_timeline_continuity [
      Py.dict [("startTime", Py.num 0), ("endTime", Py.num (d * 0.25)),
        ("animation", Py.str "idle"), ("expression", Py.str "neutral"),
        ("intensity", Py.num 0.5), ("notes", Py.str "Opening - neutral stance, setting up")],
      Py.dict [("startTime", Py.num (d * 0.25)), ("endTime", Py.num (d * 0.5)),
        ("animation", Py.str "sitTalk"), ("expression", Py.str "smile"),
        ("intensity", Py.num 0.7), ("notes", Py.str "Building - friendly, conversational tone")],
      Py.dict [("startTime", Py.num (d * 0.5)), ("endTime", Py.num (d * 0.75)),
        ("animation", Py.str "spellcast"), ("expression", Py.str "laugh"),
        ("intensity", Py.num 0.9), ("notes", Py.str "Climax - high energy, emphasizing humor")],
      Py.dict [("startTime", Py.num (d * 0.75)), ("endTime", Py.num d),
        ("animation", Py.str "relax"), ("expression", Py.str "smile"),
        ("intensity", Py.num 0.6), ("notes", Py.str "Closing - settling down, satisfied expression")]] d
      = Except.ok [] := by
    simp [_validate_timeline_continuity, gapIssuesLoop, pyAttrGet, pyGet, pyLookup, pyNum, asNum,
      List.getLast!,
      show ¬((0 : ℚ) > 0.5) from by norm_num,
      show ¬(d < d - 1) from not_lt.mpr (by linarith),
      show ¬(d * 0.25 - d * 0.25 > 1) from by rw [sub_self]; norm_num,
      show ¬(d * 0.5 - d * 0.5 > 1) from by rw [sub_self]; norm_num,
      show ¬(d * 0.75 - d * 0.75 > 1) from by rw [sub_self]; norm_num]
  simp [generate_default_animation_script, validate_animation_script, pyGet, pyLookup, Py.truthy,
    ANIMATION_CONFIG_max_keyframes, hm, hkl, hc]

/-- Witness for C4 amended at duration 10 and transcript "hello". -/
theorem generate_default_animation_script_valid_witness :
    (0 : ℚ) < 10 ∧ "hello" ≠ "" ∧
    validate_animation_script (generate_default_animation_script 10 "hello") 10
      = Except.ok (true, []) :=
  ⟨by norm_num, by decide,
    generate_default_animation_script_valid 10 "hello" (by norm_num) (by decide)⟩

/-- C4 counterexample: with an empty transcript the fallback script does NOT
validate cleanly — the empty transcript echo is falsy, so
`_validate_metadata` reports it as missing and `ok` is `false` (duration 4 as
concrete positive duration). -/
theorem generate_default_animation_script_empty_transcript_counterexample :
    validate_animation_script (generate_default_animation_script 4 "") 4
      = Except.ok (false, ["Metadata missing transcript"]) ∧
    validate_animation_script (generate_default_animation_script 4 "") 4
      ≠ Except.ok (true, []) := by
  have hscript : generate_default_animation_script 4 ""
      = Py.dict [
        ("metadata", Py.dict [
          ("duration", Py.num 4),
          ("transcript", Py.str ""),
          ("intensity", Py.str "medium"),
          ("style", Py.str "comedic"),
          ("notes", Py.str "Generated using fallback pattern"),
          ("fallback", Py.bool true)]),
        ("timeline", Py.list [
          Py.dict [("startTime", Py.num 0), ("endTime", Py.num 1),
            ("animation", Py.str "idle"), ("expression", Py.str "neutral"),
            ("intensity", Py.num 0.5), ("notes", Py.str "Opening - neutral stance, setting up")],
          Py.dict [("startTime", Py.num 1), ("endTime", Py.num 2),
            ("animation", Py.str "sitTalk"), ("expression", Py.str "smile"),
            ("intensity", Py.num 0.7), ("notes", Py.str "Building - friendly, conversational tone")],
          Py.dict [("startTime", Py.num 2), ("endTime", Py.num 3),
            ("animation", Py.str "spellcast"), ("expression", Py.str "laugh"),
            ("intensity", Py.num 0.9), ("notes", Py.str "Climax - high energy, emphasizing humor")],
          Py.dict [("startTime", Py.num 3), ("endTime", Py.num 4),
            ("animation", Py.str "relax"), ("expression", Py.str "smile"),
            ("intensity", Py.num 0.6), ("notes", Py.str "Closing - settling down, satisfied expression")]])] := by
    norm_num [generate_default_animation_script]
  have hm : _validate_metadata (Py.dict [
      ("duration", Py.num 4),
      ("transcript", Py.str ""),
      ("intensity", Py.str "medium"),
      ("style", Py.str "comedic"),
      ("notes", Py.str "Generated using fallback pattern"),
      ("fallback", Py.bool true)]) 4 = ["Metadata missing transcript"] := by
    simp [_validate_metadata, pyGet, pyLookup, pyNum, Py.truthy, isMetaIntensity,
      show ¬((4 : ℚ) ≤ 0) from by norm_num,
      show ¬(|(4 : ℚ) - 4| > 2) from by norm_num]
  have hkf1 := _validate_keyframe_wellformed 0 4 0 1 0.5 "idle" "neutral"
    "Opening - neutral stance, setting up"
    (by decide) (by decide) (by decide) (by decide) (by norm_num) (by norm_num)
    (by norm_num) (by norm_num) (by norm_num)
  have hkf2 := _validate_keyframe_wellformed 1 4 1 2 0.7 "sitTalk" "smile"
    "Building - friendly, conversational tone"
    (by decide) (by decide) (by decide) (by decide) (by norm_num) (by norm_num)
    (by norm_num) (by norm_num) (by norm_num)
  have hkf3 := _validate_keyframe_wellformed 2 4 2 3 0.9 "spellcast" "laugh"
    "Climax - high energy, emphasizing humor"
    (by decide) (by decide) (by decide) (by decide) (by norm_num) (by norm_num)
    (by norm_num) (by norm_num) (by norm_num)
  have hkf4 := _validate_keyframe_wellformed 3 4 3 4 0.6 "relax" "smile"
    "Closing - settling down, satisfied expression"
    (by decide) (by decide) (by decide) (by decide) (by norm_num) (by norm_num)
    (by norm_num) (by norm_num) (by norm_num)
  have hkl : keyframeLoop [
      Py.dict [("startTime", Py.num 0), ("endTime", Py.num 1),
        ("animation", Py.str "idle"), ("expression", Py.str "neutral"),
        ("intensity", Py.num 0.5), ("notes", Py.str "Opening - neutral stance, setting up")],
      Py.dict [("startTime", Py.num 1), ("endTime", Py.num 2),
        ("animation", Py.str "sitTalk"), ("expression", Py.str "smile"),
        ("intensity", Py.num 0.7), ("notes", Py.str "Building - friendly, conversational tone")],
      Py.dict [("startTime", Py.num 2), ("endTime", Py.num 3),
        ("animation", Py.str "spellcast"), ("expression", Py.str "laugh"),
        ("intensity", Py.num 0.9), ("notes", Py.str "Climax - high energy, emphasizing humor")],
      Py.dict [("startTime", Py.num 3), ("endTime", Py.num 4),
        ("animation", Py.str "relax"), ("expression", Py.str "smile"),
        ("intensity", Py.num 0.6), ("notes", Py.str "Closing - settling down, satisfied expression")]] 0 4
      = Except.ok [] := by
    simp [keyframeLoop, hkf1, hkf2, hkf3, hkf4]
  have hc : _validate_timeline_continuity [
      Py.dict [("startTime", Py.num 0), ("endTime", Py.num 1),
        ("animation", Py.str "idle"), ("expression", Py.str "neutral"),
        ("intensity", Py.num 0.5), ("notes", Py.str "Opening - neutral stance, setting up")],
      Py.dict [("startTime", Py.num 1), ("endTime", Py.num 2),
        ("animation", Py.str "sitTalk"), ("expression", Py.str "smile"),
        ("intensity", Py.num 0.7), ("notes", Py.str "Building - friendly, conversational tone")],
      Py.dict [("startTime", Py.num 2), ("endTime", Py.num 3),
        ("animation", Py.str "spellcast"), ("expression", Py.str "laugh"),
        ("intensity", Py.num 0.9), ("notes", Py.str "Climax - high energy, emphasizing humor")],
      Py.dict [("startTime", Py.num 3), ("endTime", Py.num 4),
        ("animation", Py.str "relax"), ("expression", Py.str "smile"),
        ("intensity", Py.num 0.6), ("notes", Py.str "Closing - settling down, satisfied expression")]] 4
      = Except.ok [] := by
    simp [_validate_timeline_continuity, gapIssuesLoop, pyAttrGet, pyGet, pyLookup, pyNum, asNum,
      List.getLast!,
      show ¬((0 : ℚ) > 0.5) from by norm_num,
      show ¬((4 : ℚ) < 4 - 1) from by norm_num,
      show ¬((1 : ℚ) - 1 > 1) from by norm_num,
      show ¬((2 : ℚ) - 2 > 1) from by norm_num,
      show ¬((3 : ℚ) - 3 > 1) from by norm_num]
  have h1 : validate_animation_script (generate_default_animation_script 4 "") 4
      = Except.ok (false, ["Metadata missing transcript"]) := by
    rw [hscript]
    simp [validate_animation_script, pyGet, pyLookup, Py.truthy, ANIMATION_CONFIG_max_keyframes,
      hm, hkl, hc]
  exact ⟨h1, by rw [h1]; simp⟩
